import Mathlib

/-!
Verification development for the NewsStream content deduplication engine
(`src/core/deduplication_engine.py`).

Strings are modelled as `List Char`; Python `float` similarity arithmetic is
modelled over `ℚ`; Python `int` values over `ℤ`/`ℕ`; wall-clock timestamps
(`datetime.now()`) as integer seconds `ℤ` supplied explicitly to each call.
Python exceptions are modelled with `Except`.  External library calls
(`nltk` tokenizers, `textstat.flesch_reading_ease`, the stemmer and the
stop-word list, and the cryptographic digests) are parameters of the model;
everything implemented inside the repository is translated from the source.
The `lower` model covers the ASCII range (every input appearing in the
theorems below is ASCII).
-/

set_option maxRecDepth 4000

namespace NewsStream

/-- Characters Python `str.split()` / `str.strip()` treat as whitespace
(ASCII fragment). -/
def isSpacePy (c : Char) : Bool :=
  c = ' ' || c = '\t' || c = '\n' || c = '\r' || c = '\x0b' || c = '\x0c'

/-- ASCII model of Python `str.lower` applied to one character. -/
def lowerChar (c : Char) : Char :=
  if 'A' ≤ c ∧ c ≤ 'Z' then Char.ofNat (c.toNat + 32) else c

/-- Python `content.lower()`. -/
def pyLower (s : List Char) : List Char := s.map lowerChar

/-- Fuelled worker for Python `str.split()` (split on whitespace runs,
dropping empty chunks).  Fuel `s.length` always suffices because every
recursive call consumes at least one character. -/
def splitWsGo : Nat → List Char → List (List Char)
  | 0, _ => []
  | _ + 1, [] => []
  | fuel + 1, c :: cs =>
    if isSpacePy c then splitWsGo fuel cs
    else
      (c :: cs).takeWhile (fun d => !(isSpacePy d)) ::
        splitWsGo fuel ((c :: cs).dropWhile (fun d => !(isSpacePy d)))

/-- Python `s.split()` (no separator argument). -/
def splitWs (s : List Char) : List (List Char) := splitWsGo s.length s

/-- Python `' '.join(ws)`. -/
def joinSpace (ws : List (List Char)) : List Char := List.intercalate [' '] ws

/-- Python `s.strip()` (ASCII whitespace model). -/
def stripWs (s : List Char) : List Char :=
  ((s.dropWhile isSpacePy).reverse.dropWhile isSpacePy).reverse

/-- Fuelled worker for Python `str.replace` with a non-empty needle: scans
left to right, replacing non-overlapping occurrences, never rescanning the
replacement text. -/
def replaceGo (needle repl : List Char) : Nat → List Char → List Char
  | _, [] => []
  | 0, s => s
  | fuel + 1, c :: cs =>
    if needle.isPrefixOf (c :: cs) then
      repl ++ replaceGo needle repl fuel (cs.drop (needle.length - 1))
    else
      c :: replaceGo needle repl fuel cs

/-- Python `s.replace(needle, repl)`.  An empty needle inserts `repl`
before every character and at the end, as CPython does. -/
def pyReplace (s needle repl : List Char) : List Char :=
  if needle = [] then s.foldr (fun c acc => repl ++ c :: acc) repl
  else replaceGo needle repl s.length s

/-- Fuelled worker for Python `str.split(sep)` with non-empty separator:
keeps empty chunks, result is never empty. -/
def splitSepGo (sep : List Char) : Nat → List Char → List (List Char)
  | _, [] => [[]]
  | 0, s => [s]
  | fuel + 1, c :: cs =>
    if sep.isPrefixOf (c :: cs) then
      [] :: splitSepGo sep fuel (cs.drop (sep.length - 1))
    else
      match splitSepGo sep fuel cs with
      | [] => [[c]]
      | chunk :: rest => (c :: chunk) :: rest

/-- Python `s.split(sep)` for a non-empty separator string. -/
def pySplitSep (s sep : List Char) : List (List Char) :=
  splitSepGo sep s.length s

/-- Python `x in s` (substring containment) for strings. -/
def pyContains (s sub : List Char) : Bool :=
  (List.range (s.length + 1)).any (fun i => sub.isPrefixOf (s.drop i))

/--
`ContentFingerprint._normalize_content`.

In the source file the quote-folding line
`content = content.replace(''', "'").replace(''', "'")` was saved with
plain ASCII quotes, so Python parses it as a single call
`content.replace(<15-char needle>, "'")` whose first argument is the
triple-quoted string `, "'").replace(` — this is reproduced literally
here.  The preceding line `content.replace('"', '"').replace('"', '"')`
consists of two identity replacements and is likewise kept.
-/
def quoteFoldNeedle : List Char := [',', ' ', '"', '\'', '"', ')', '.',
  'r', 'e', 'p', 'l', 'a', 'c', 'e', '(']

def normalize_content (content : List Char) : List Char :=
  let c1 := joinSpace (splitWs (pyLower content))
  let c2 := pyReplace (pyReplace c1 ['\n'] [' ']) ['\t'] [' ']
  let c3 := pyReplace (pyReplace c2 ['"'] ['"']) ['"'] ['"']
  let c4 := pyReplace c3 quoteFoldNeedle ['\'']
  stripWs c4

/-- The fixed vocabulary of `ContentFingerprint._extract_topic_indicators`. -/
def tech_indicators : List (List Char) :=
  ["ai".toList, "artificial intelligence".toList, "machine learning".toList,
   "deep learning".toList, "neural network".toList, "automation".toList,
   "robot".toList, "blockchain".toList, "cryptocurrency".toList,
   "bitcoin".toList, "ethereum".toList, "cloud computing".toList,
   "aws".toList, "azure".toList, "google cloud".toList,
   "cybersecurity".toList, "hacker".toList, "data breach".toList,
   "privacy".toList, "gdpr".toList, "startup".toList, "funding".toList,
   "venture capital".toList, "ipo".toList, "acquisition".toList,
   "software".toList, "app".toList, "mobile".toList, "web".toList,
   "internet".toList, "tech".toList, "technology".toList,
   "innovation".toList, "digital".toList, "platform".toList,
   "api".toList, "database".toList, "server".toList]

/-- The `found_indicators` list comprehension: vocabulary terms that occur
as raw substrings of the lowercased text, in vocabulary order. -/
def foundIndicators (content : List Char) : List (List Char) :=
  tech_indicators.filter (fun ind => pyContains (pyLower content) ind)

/-- `ContentFingerprint._extract_topic_indicators` (returns the first 10
matches only). -/
def extract_topic_indicators (content : List Char) : List (List Char) :=
  (foundIndicators content).take 10

/-!
### `difflib.SequenceMatcher` (used by `_calculate_sentence_similarity`)

Transcribed from CPython's `difflib.py` with `isjunk = None`.  The `b2j`
"popular element" pruning (autojunk) only applies when `len(b) ≥ 200`; every
string this development evaluates the matcher on is far shorter, so `b2j`
maps each character to all of its positions in `b`.  With an empty junk set
the two junk-extension loops of `find_longest_match` never fire and are
omitted.
-/

/-- Ascending positions `j ∈ [blo, bhi)` with `b[j] = c`: the inner loop's
view of `b2j.get(a[i])` after the `j < blo` / `j >= bhi` guards. -/
def posns (b : List Char) (blo bhi : Nat) (c : Char) : List Nat :=
  (List.range b.length).filter (fun j => blo ≤ j && j < bhi && b.getD j '\x00' == c)

/-- `dict.get j 0` on the `j2len` association list. -/
def lookupD (l : List (Nat × Nat)) (j : Nat) : Nat :=
  match l.lookup j with
  | some v => v
  | none => 0

/-- One iteration of the `for j in b2j.get(a[i], nothing)` loop body:
`k = newj2len[j] = j2len.get(j-1, 0) + 1`, updating the running best
`(besti, bestj, bestsize)` when `k > bestsize` (Python's `j - 1` of `j = 0`
is the absent key `-1`, so the lookup yields 0). -/
def flmInner (old : List (Nat × Nat)) (i : Nat) (js : List Nat)
    (init : List (Nat × Nat) × Nat × Nat × Nat) :
    List (Nat × Nat) × Nat × Nat × Nat :=
  js.foldl
    (fun st j =>
      let k := (if j = 0 then 0 else lookupD old (j - 1)) + 1
      let nw := (j, k) :: st.1
      if k > st.2.2.2 then (nw, i + 1 - k, j + 1 - k, k)
      else (nw, st.2.1, st.2.2.1, st.2.2.2))
    init

/-- The dictionary phase of `find_longest_match` over `i ∈ [alo, ahi)`. -/
def flmScan (a b : List Char) (alo ahi blo bhi : Nat) : Nat × Nat × Nat :=
  let st := (List.range' alo (ahi - alo)).foldl
    (fun st i =>
      let js := posns b blo bhi (a.getD i '\x00')
      let r := flmInner st.1 i js ([], st.2)
      (r.1, r.2))
    (([] : List (Nat × Nat)), alo, blo, 0)
  st.2

/-- The first extension loop: grow the block downwards while the adjacent
characters match. -/
def extendLo (a b : List Char) (alo blo : Nat) : Nat → Nat × Nat × Nat → Nat × Nat × Nat
  | 0, st => st
  | fuel + 1, (bi, bj, bs) =>
    if alo < bi ∧ blo < bj ∧ a.getD (bi - 1) '\x00' = b.getD (bj - 1) '\x01' then
      extendLo a b alo blo fuel (bi - 1, bj - 1, bs + 1)
    else (bi, bj, bs)

/-- The second extension loop: grow the block upwards. -/
def extendHi (a b : List Char) (ahi bhi : Nat) : Nat → Nat × Nat × Nat → Nat × Nat × Nat
  | 0, st => st
  | fuel + 1, (bi, bj, bs) =>
    if bi + bs < ahi ∧ bj + bs < bhi ∧ a.getD (bi + bs) '\x00' = b.getD (bj + bs) '\x01' then
      extendHi a b ahi bhi fuel (bi, bj, bs + 1)
    else (bi, bj, bs)

/-- `SequenceMatcher.find_longest_match(alo, ahi, blo, bhi)`. -/
def findLongestMatch (a b : List Char) (alo ahi blo bhi : Nat) : Nat × Nat × Nat :=
  let st := flmScan a b alo ahi blo bhi
  let st := extendLo a b alo blo a.length st
  extendHi a b ahi bhi a.length st

/-- Total size of the matching blocks found by `get_matching_blocks`'
divide-and-conquer (the queue in CPython explores exactly these ranges; the
final sort-and-merge step does not change the total size). -/
def matchTotalGo (a b : List Char) : Nat → Nat → Nat → Nat → Nat → Nat
  | 0, _, _, _, _ => 0
  | fuel + 1, alo, ahi, blo, bhi =>
    let m := findLongestMatch a b alo ahi blo bhi
    let i := m.1
    let j := m.2.1
    let k := m.2.2
    if k = 0 then 0
    else
      (if alo < i ∧ blo < j then matchTotalGo a b fuel alo i blo j else 0)
        + k +
      (if i + k < ahi ∧ j + k < bhi then matchTotalGo a b fuel (i + k) ahi (j + k) bhi else 0)

/-- `M` in `ratio`: total number of matched elements. -/
def matchTotal (a b : List Char) : Nat :=
  matchTotalGo a b (a.length + b.length + 1) 0 a.length 0 b.length

/-- `SequenceMatcher(None, a, b).ratio() = 2M / (len(a) + len(b))`,
returning 1.0 when both sequences are empty (`difflib._calculate_ratio`). -/
def seqRatio (a b : List Char) : ℚ :=
  if a.length + b.length ≠ 0 then
    (2 * matchTotal a b : ℚ) / (a.length + b.length : ℚ)
  else 1

/-!
### Content fingerprints (`ContentFingerprint`)

The engine calls external libraries (`nltk.word_tokenize`,
`nltk.sent_tokenize`, `textstat.flesch_reading_ease`, the Porter stemmer and
the NLTK stop-word list).  These are not part of the repository; they are
parameters of the model, with `Except Unit` modelling the exceptions the
source catches.
-/

/-- Values stored in the `content_structure` Python dict (`int`, `float`
and `bool` entries). -/
inductive PyVal where
  | int (n : ℤ)
  | rat (q : ℚ)
  | bool (b : Bool)

/-- A Python dict with string keys, as an insertion-ordered association
list. -/
abbrev PyDict := List (List Char × PyVal)

/-- `d.get(key, default)` for an integer-valued entry (the only reads the
similarity code performs are of `word_count`, which both producers store as
an `int`). -/
def getIntD (d : PyDict) (key : List Char) (dflt : ℤ) : ℤ :=
  match d.lookup key with
  | some (.int n) => n
  | some _ => dflt
  | none => dflt

/-- External text-analysis libraries used by `ContentFingerprint`. -/
structure Libs where
  word_tokenize : List Char → Except Unit (List (List Char))
  sent_tokenize : List Char → Except Unit (List (List Char))
  flesch : List Char → Except Unit ℚ
  stem : List Char → List Char
  stopwords : List (List Char)

/-- Python `w.isalpha()`: non-empty and all characters alphabetic. -/
def pyIsAlpha (w : List Char) : Bool :=
  !w.isEmpty && w.all Char.isAlpha

/-- `word_freq` accumulation: counts keyed in first-occurrence order
(Python dicts preserve insertion order). -/
def freqItems (ws : List (List Char)) : List (List Char × Nat) :=
  ws.foldl
    (fun acc w =>
      if (acc.lookup w).isSome then
        acc.map (fun p => if p.1 == w then (p.1, p.2 + 1) else p)
      else acc ++ [(w, 1)])
    []

/-- Stable insertion into a descending-sorted list: an element goes after
every earlier element with an equal or larger key, matching the stability
of Python's `sorted(..., reverse=True)`. -/
def insertDescBy {α β : Type} [LinearOrder β] (key : α → β) (x : α) :
    List α → List α
  | [] => [x]
  | y :: ys => if key x > key y then x :: y :: ys else y :: insertDescBy key x ys

/-- Stable descending sort by key (model of `sorted(..., key=..., reverse=True)`
and of in-place `list.sort(..., reverse=True)`). -/
def sortDescBy {α β : Type} [LinearOrder β] (key : α → β) (l : List α) : List α :=
  l.foldl (fun acc x => insertDescBy key x acc) []

/-- `ContentFingerprint._extract_key_words`: tokenize the lowercased text,
keep alphabetic tokens longer than 3 characters that are not stop words,
stem them, and return the 20 most frequent (ties by first occurrence).  On
a library failure, fall back to the first 20 whitespace tokens. -/
def extract_key_words (libs : Libs) (content : List Char) : List (List Char) :=
  match libs.word_tokenize (pyLower content) with
  | .error _ => (splitWs (pyLower content)).take 20
  | .ok words =>
    let key_words :=
      (words.filter (fun w =>
        pyIsAlpha w && decide (w.length > 3) && !(libs.stopwords.contains w))).map libs.stem
    ((sortDescBy (fun p => p.2) (freqItems key_words)).take 20).map Prod.fst

/-- `ContentFingerprint._extract_key_sentences`: score each sentence by
`1/(i+1) + min(words/20, 1.0)`, sort descending (stable), keep 5, strip.
On a library failure, fall back to splitting on periods. -/
def extract_key_sentences (libs : Libs) (content : List Char) : List (List Char) :=
  match libs.sent_tokenize content with
  | .error _ => (pySplitSep content ['.']).take 5
  | .ok sentences =>
    let scored := sentences.enum.map (fun p =>
      let words := (splitWs p.2).length
      let position_score : ℚ := 1 / (p.1 + 1 : ℚ)
      let length_score : ℚ := min ((words : ℚ) / 20) 1
      (stripWs p.2, position_score + length_score))
    ((sortDescBy (fun p => p.2) scored).take 5).map Prod.fst

/-- `ContentFingerprint._analyze_structure`.  The only fallible call inside
the `try` block is `sent_tokenize`; on failure the fallback dict carries
just `word_count`. -/
def analyze_structure (libs : Libs) (content : List Char) : PyDict :=
  match libs.sent_tokenize content with
  | .error _ => [("word_count".toList, .int ((splitWs content).length : ℤ))]
  | .ok sentences =>
    let paragraphs := pySplitSep content ['\n', '\n']
    let words := splitWs content
    [("paragraph_count".toList, .int (paragraphs.length : ℤ)),
     ("avg_paragraph_length".toList, .rat
       (if !paragraphs.isEmpty then
          ((paragraphs.map (fun p => (splitWs p).length)).sum : ℚ) / (paragraphs.length : ℚ)
        else 0)),
     ("sentence_count".toList, .int (sentences.length : ℤ)),
     ("avg_sentence_length".toList, .rat
       (if !sentences.isEmpty then
          ((sentences.map (fun s => (splitWs s).length)).sum : ℚ) / (sentences.length : ℚ)
        else 0)),
     ("word_count".toList, .int (words.length : ℤ)),
     ("has_quotes".toList, .bool (pyContains content ['"'] || pyContains content ['\''])),
     ("has_numbers".toList, .bool (content.any Char.isDigit)),
     ("has_links".toList, .bool (pyContains (pyLower content) "http".toList ||
        pyContains (pyLower content) "www".toList))]

/-- The semantic fingerprint record (Python dict with these fixed keys;
both construction paths populate every key, so it is modelled as a
structure). -/
structure Fingerprint where
  key_words : List (List Char)
  key_sentences : List (List Char)
  word_count : ℕ
  sentence_count : ℕ
  reading_ease : ℚ
  content_structure : PyDict
  topic_indicators : List (List Char)

/-- `ContentFingerprint._create_basic_fingerprint` (fallback path). -/
def create_basic_fingerprint (content : List Char) : Fingerprint :=
  let words := splitWs content
  { key_words := words.take 20
    key_sentences := (pySplitSep content ['.']).take 3
    word_count := words.length
    sentence_count := content.count '.' + content.count '!' + content.count '?'
    reading_ease := 50
    content_structure := [("word_count".toList, .int (words.length : ℤ))]
    topic_indicators := [] }

/-- The `try` body of `create_semantic_fingerprint`: the two direct library
calls (`sent_tokenize` for `sentence_count`, `flesch_reading_ease` for
`reading_ease`, the latter only when the stripped text is non-empty) are the
only places an exception can escape to the enclosing handler — the helper
extractors catch their own errors. -/
def fingerprint_body (libs : Libs) (content : List Char) : Except Unit Fingerprint := do
  let kw := extract_key_words libs content
  let ks := extract_key_sentences libs content
  let sentences ← libs.sent_tokenize content
  let re ← if !(stripWs content).isEmpty then libs.flesch content else Except.ok 0
  Except.ok
    { key_words := kw
      key_sentences := ks
      word_count := (splitWs content).length
      sentence_count := sentences.length
      reading_ease := re
      content_structure := analyze_structure libs content
      topic_indicators := extract_topic_indicators content }

/-- `ContentFingerprint.create_semantic_fingerprint`: fall back to the
basic fingerprint when the body raises. -/
def create_semantic_fingerprint (libs : Libs) (content : List Char) : Fingerprint :=
  match fingerprint_body libs content with
  | .ok fp => fp
  | .error _ => create_basic_fingerprint content

/-!
### Similarity scoring (`DeduplicationEngine._calculate_*`)
-/

/-- `DeduplicationEngine._calculate_word_similarity`: Jaccard index of the
two key-word sets, 0.0 when either list is empty or the union is empty. -/
def calculate_word_similarity (words1 words2 : List (List Char)) : ℚ :=
  if words1.isEmpty || words2.isEmpty then 0
  else
    let s1 := words1.toFinset
    let s2 := words2.toFinset
    let inter := (s1 ∩ s2).card
    let union := (s1 ∪ s2).card
    if union > 0 then (inter : ℚ) / (union : ℚ) else 0

/-- `DeduplicationEngine._calculate_sentence_similarity`: maximum
`SequenceMatcher.ratio()` over all pairs of lowercased key sentences, 0.0
when either list is empty. -/
def calculate_sentence_similarity (sentences1 sentences2 : List (List Char)) : ℚ :=
  if sentences1.isEmpty || sentences2.isEmpty then 0
  else
    sentences1.foldl
      (fun m s1 => sentences2.foldl
        (fun m s2 => max m (seqRatio (pyLower s1) (pyLower s2))) m)
      0

/-- `DeduplicationEngine._calculate_topic_similarity`: Jaccard index of the
topic-indicator sets, 0.0 when either list is empty. -/
def calculate_topic_similarity (topics1 topics2 : List (List Char)) : ℚ :=
  if topics1.isEmpty || topics2.isEmpty then 0
  else
    let s1 := topics1.toFinset
    let s2 := topics2.toFinset
    let inter := (s1 ∩ s2).card
    let union := (s1 ∪ s2).card
    if union > 0 then (inter : ℚ) / (union : ℚ) else 0

/-- `DeduplicationEngine._calculate_structure_similarity`.  The word-count
difference uses `.get('word_count', 0)` while the divisor uses
`.get('word_count', 1)`: the `1` default guards a *missing* key only.  When
both dicts are non-empty and both carry `word_count = 0`, the divisor is
`max 0 0 = 0` and Python raises `ZeroDivisionError` — modelled as
`Except.error ()`. -/
def calculate_structure_similarity (struct1 struct2 : PyDict) : Except Unit ℚ :=
  if struct1.isEmpty || struct2.isEmpty then .ok 0
  else
    let word_count_diff :=
      (getIntD struct1 "word_count".toList 0 - getIntD struct2 "word_count".toList 0).natAbs
    let max_words := max (getIntD struct1 "word_count".toList 1) (getIntD struct2 "word_count".toList 1)
    if max_words = 0 then .error ()
    else .ok (1 - (word_count_diff : ℚ) / (max_words : ℚ))

/-- Modelled from the spec: `structureSim = 1 − |wordCountA − wordCountB| /
max(wordCountA, wordCountB, 1)` (§4.4 of the spec; the code lacks the
final `1` bound when the key is present). -/
def structureSimSpec (wcA wcB : ℤ) : ℚ :=
  1 - ((wcA - wcB).natAbs : ℚ) / ((max (max wcA wcB) 1 : ℤ) : ℚ)

/-- `DeduplicationEngine._calculate_similarity`: weighted combination
`0.4·word + 0.3·sentence + 0.2·topic + 0.1·structure`; the surrounding
`try/except` turns the `ZeroDivisionError` of the structure term into an
overall score of `0.0`. -/
def calculate_similarity (fp1 fp2 : Fingerprint) : ℚ :=
  let word_sim := calculate_word_similarity fp1.key_words fp2.key_words
  let sentence_sim := calculate_sentence_similarity fp1.key_sentences fp2.key_sentences
  let topic_sim := calculate_topic_similarity fp1.topic_indicators fp2.topic_indicators
  match calculate_structure_similarity fp1.content_structure fp2.content_structure with
  | .error _ => 0
  | .ok structure_sim =>
    word_sim * (0.4 : ℚ) + sentence_sim * (0.3 : ℚ) +
      topic_sim * (0.2 : ℚ) + structure_sim * (0.1 : ℚ)

/-!
### `DeduplicationEngine` — in-memory fallback backend

When the Redis connection fails at construction, every store operation uses
the in-process collections `content_hashes : Set`, `content_fingerprints :
Dict` and `processed_items : Dict` (`_init_redis` sets `redis_client =
None`).  That backend is modelled here; `datetime.now()` is an explicit
integer-seconds argument, and the digests `sha256`/`md5` are parameters.
-/

/-- Digest functions (`hashlib.sha256(...).hexdigest()`,
`hashlib.md5(...).hexdigest()`). -/
structure HashFns where
  sha256Hex : List Char → List Char
  md5Hex : List Char → List Char

/-- Engine configuration (`similarity_threshold`, `time_window_hours`,
`content_hash_enabled`, `semantic_analysis`). -/
structure EngineConfig where
  similarity_threshold : ℚ
  time_window_hours : ℤ
  content_hash_enabled : Bool
  semantic_analysis : Bool

/-- The in-memory caches of the local fallback backend. -/
structure EngineState where
  content_hashes : List (List Char)
  content_fingerprints : List (List Char × Fingerprint)
  processed_items : List (List Char × ℤ)

def emptyState : EngineState := ⟨[], [], []⟩

/-- `ContentFingerprint.create_content_hash`: digest of the normalized
content. -/
def create_content_hash (H : HashFns) (content : List Char) : List Char :=
  H.sha256Hex (normalize_content content)

/-- Python `set.add`. -/
def setAdd (l : List (List Char)) (x : List Char) : List (List Char) :=
  if l.contains x then l else l ++ [x]

/-- Python dict assignment `d[k] = v`: overwrite in place when the key
exists, append otherwise (insertion order preserved). -/
def dictSet {β : Type} (l : List (List Char × β)) (k : List Char) (v : β) :
    List (List Char × β) :=
  if (l.lookup k).isSome then l.map (fun p => if p.1 == k then (k, v) else p)
  else l ++ [(k, v)]

/-- `DeduplicationEngine._clean_expired_entries` (in-memory backend): drop
`processed_items` entries older than the window (strict `>` against
`timedelta(hours=time_window_hours)`), and when the fingerprint table holds
more than 10000 entries drop the oldest 5000.  Content hashes are not
touched. -/
def clean_expired_entries (cfg : EngineConfig) (now : ℤ) (st : EngineState) :
    EngineState :=
  { st with
    processed_items :=
      st.processed_items.filter (fun p => !(now - p.2 > cfg.time_window_hours * 3600))
    content_fingerprints :=
      if st.content_fingerprints.length > 10000 then st.content_fingerprints.drop 5000
      else st.content_fingerprints }

/-- The `for stored_id, stored_fingerprint in stored_fingerprints.items()`
loop of `_check_semantic_similarity`, carrying `max_similarity` and
`most_similar_id`; the `>=` threshold test is nested inside the strict
`similarity > max_similarity` branch, exactly as in the source. -/
def semanticScan (threshold : ℚ) (fp : Fingerprint) :
    List (List Char × Fingerprint) → ℚ → List Char → Bool × List Char × ℚ
  | [], max_similarity, _ => (false, "semantically_unique".toList, max_similarity)
  | (stored_id, stored_fp) :: rest, max_similarity, most_similar_id =>
    let similarity := calculate_similarity fp stored_fp
    if similarity > max_similarity then
      if similarity ≥ threshold then
        (true, "semantic_similar_to_".toList ++ stored_id, similarity)
      else semanticScan threshold fp rest similarity stored_id
    else semanticScan threshold fp rest max_similarity most_similar_id

/-- `DeduplicationEngine._check_semantic_similarity` against the stored
fingerprint table (in-memory: insertion order). -/
def check_semantic_similarity (threshold : ℚ)
    (stored : List (List Char × Fingerprint)) (fp : Fingerprint) :
    Bool × List Char × ℚ :=
  semanticScan threshold fp stored 0 []

/-- `DeduplicationEngine.is_duplicate` on the in-memory backend: expiry
sweep, then the hash, semantic and URL stages with their early returns,
then `(False, "unique", 0.0)`.  `_record_processed_item` writes only to
Redis and is a no-op here.  Every helper used on this path is total (each
has its own `except` fallback), so the outer `try/except` never fires. -/
def is_duplicate_mem (libs : Libs) (H : HashFns) (cfg : EngineConfig)
    (now : ℤ) (st : EngineState) (content title url : List Char) :
    (Bool × List Char × ℚ) × EngineState :=
  let st0 := clean_expired_entries cfg now st
  let content_id := title ++ '_' :: url ++ '_' :: content.take 100
  let stage3 : EngineState → (Bool × List Char × ℚ) × EngineState := fun st =>
    if !url.isEmpty then
      let url_hash := H.md5Hex url
      if (st.processed_items.lookup url_hash).isSome then
        ((true, "url_duplicate".toList, (0.9 : ℚ)), st)
      else
        ((false, "unique".toList, 0),
          { st with processed_items := dictSet st.processed_items url_hash now })
    else ((false, "unique".toList, 0), st)
  let stage2 : EngineState → (Bool × List Char × ℚ) × EngineState := fun st =>
    if cfg.semantic_analysis then
      let fp := create_semantic_fingerprint libs content
      let r := check_semantic_similarity cfg.similarity_threshold st.content_fingerprints fp
      if r.1 then (r, st)
      else stage3
        { st with content_fingerprints := dictSet st.content_fingerprints content_id fp }
    else stage3 st
  if cfg.content_hash_enabled then
    let content_hash := create_content_hash H content
    if st0.content_hashes.contains content_hash then
      ((true, "exact_duplicate".toList, 1), st0)
    else stage2 { st0 with content_hashes := setAdd st0.content_hashes content_hash }
  else stage2 st0

/-!
### The outer `try/except` of `is_duplicate`

To state the fail-open property over *every* possible internal fault, the
check's individual operations are abstracted as fallible steps; the body
chains them with the source's control flow, and the guarded entry point is
the body wrapped in the `except Exception` handler that yields
`(False, "error_fallback", 0.0)`.
-/

/-- The sub-operations of one `is_duplicate` call, each allowed to raise. -/
structure DedupSteps (σ : Type) where
  clean : σ → Except Unit σ
  hash_content : List Char → Except Unit (List Char)
  is_hash_dup : σ → List Char → Except Unit Bool
  store_hash : σ → List Char → List Char → Except Unit σ
  mk_fingerprint : List Char → Except Unit Fingerprint
  semantic : σ → Fingerprint → Except Unit (Bool × List Char × ℚ)
  store_fingerprint : σ → List Char → Fingerprint → Except Unit σ
  is_url_dup : σ → List Char → Except Unit Bool
  store_url : σ → List Char → List Char → Except Unit σ
  record_item : σ → List Char → Except Unit σ

/-- The `try` body of `is_duplicate`, over abstract fallible steps. -/
def is_duplicate_body {σ : Type} (S : DedupSteps σ) (cfg : EngineConfig)
    (st : σ) (content title url : List Char) :
    Except Unit (Bool × List Char × ℚ) := do
  let st ← S.clean st
  let content_id := title ++ '_' :: url ++ '_' :: content.take 100
  let stage3 : σ → Except Unit (Bool × List Char × ℚ) := fun st => do
    if !url.isEmpty then
      if (← S.is_url_dup st url) then
        return (true, "url_duplicate".toList, (0.9 : ℚ))
      else
        let st ← S.store_url st url content_id
        let _ ← S.record_item st content_id
        return (false, "unique".toList, 0)
    else
      let _ ← S.record_item st content_id
      return (false, "unique".toList, 0)
  let stage2 : σ → Except Unit (Bool × List Char × ℚ) := fun st => do
    if cfg.semantic_analysis then
      let fp ← S.mk_fingerprint content
      let r ← S.semantic st fp
      if r.1 then return r
      else
        let st ← S.store_fingerprint st content_id fp
        stage3 st
    else stage3 st
  if cfg.content_hash_enabled then
    let content_hash ← S.hash_content content
    if (← S.is_hash_dup st content_hash) then
      return (true, "exact_duplicate".toList, 1)
    else
      let st ← S.store_hash st content_hash content_id
      stage2 st
  else stage2 st

/-- `is_duplicate` with its outer exception handler: any escaped fault
becomes the fail-open verdict. -/
def is_duplicate_guarded {σ : Type} (S : DedupSteps σ) (cfg : EngineConfig)
    (st : σ) (content title url : List Char) : Bool × List Char × ℚ :=
  match is_duplicate_body S cfg st content title url with
  | .ok r => r
  | .error _ => (false, "error_fallback".toList, 0)

/-!
### Concrete instances used by witnesses and counterexamples
-/

/-- A simple concrete instantiation of the external libraries (any total
functions are a legitimate instance; the engine's behaviour under scrutiny
does not depend on their output beyond what the theorems state). -/
def toyLibs : Libs :=
  { word_tokenize := fun s => .ok (splitWs s)
    sent_tokenize := fun s => .ok (if s.isEmpty then [] else [s])
    flesch := fun _ => .ok 0
    stem := id
    stopwords := [] }

/-- Libraries whose sentence tokenizer raises, driving
`create_semantic_fingerprint` into its fallback path. -/
def failLibs : Libs :=
  { word_tokenize := fun _ => .error ()
    sent_tokenize := fun _ => .error ()
    flesch := fun _ => .error ()
    stem := id
    stopwords := [] }

/-- Identity digests: a legitimate concrete instance of the digest
parameters (the engine uses digests only as opaque keys). -/
def toyHash : HashFns := ⟨id, id⟩

/-- The configuration defaults of `DeduplicationEngine.__init__`. -/
def cfgDefault : EngineConfig :=
  { similarity_threshold := 0.8
    time_window_hours := 24
    content_hash_enabled := true
    semantic_analysis := true }

/-- `time_window_hours = 0`, semantic stage off. -/
def cfgZeroWindow : EngineConfig :=
  { similarity_threshold := 0.8
    time_window_hours := 0
    content_hash_enabled := true
    semantic_analysis := false }

/-- Every step raises: an engine whose backend faults on the first
operation. -/
def failSteps : DedupSteps Unit :=
  { clean := fun _ => .error ()
    hash_content := fun _ => .error ()
    is_hash_dup := fun _ _ => .error ()
    store_hash := fun _ _ _ => .error ()
    mk_fingerprint := fun _ => .error ()
    semantic := fun _ _ => .error ()
    store_fingerprint := fun _ _ _ => .error ()
    is_url_dup := fun _ _ => .error ()
    store_url := fun _ _ _ => .error ()
    record_item := fun _ _ => .error () }

/-- Input on which `_normalize_content` is not idempotent: its first
normalization pass manufactures a fresh occurrence of the 15-character
needle (`str.replace` never rescans its own output), which the second pass
then rewrites. -/
def s8 : List Char := ", \"".toList ++ quoteFoldNeedle ++ "\").replace(".toList

/-- Text matching eleven vocabulary terms; `server` occurs only inside the
longer word `myserverless` and is the eleventh match in vocabulary order. -/
def c10Text : List Char :=
  ("ai artificial intelligence machine learning deep learning neural network "
    ++ "automation robot blockchain cryptocurrency bitcoin myserverless").toList

/-- Fingerprint of the empty string along the real (non-fallback) path:
every list field is empty and `content_structure` is the full eight-key
dict with `word_count = 0`. -/
def fpEmpty : Fingerprint := create_semantic_fingerprint toyLibs []

/-- Fingerprint of the two-character text `hi` along the real path
(`word_count = 1`, no key words, one key sentence, no topics). -/
def fpOne : Fingerprint := create_semantic_fingerprint toyLibs "hi".toList

/-- Hand-rolled fingerprint with `word_count = 0` (as produced for empty
content). -/
def fpWc0 : Fingerprint :=
  ⟨[], [], 0, 0, 0, [("word_count".toList, .int 0)], []⟩

/-- Hand-rolled fingerprint with `word_count = 4`. -/
def fpWc4 : Fingerprint :=
  ⟨[], [], 4, 0, 0, [("word_count".toList, .int 4)], []⟩

/-- Hand-rolled fingerprint with `word_count = 2` (self-similarity is
exactly `0.1`). -/
def fpW2 : Fingerprint :=
  ⟨[], [], 2, 0, 0, [("word_count".toList, .int 2)], []⟩

/-- Fingerprint whose only key sentence is `ab`. -/
def fpSentA : Fingerprint :=
  ⟨[], ["ab".toList], 1, 1, 0, [("word_count".toList, .int 1)], []⟩

/-- Fingerprint whose only key sentence is `bacb`. -/
def fpSentB : Fingerprint :=
  ⟨[], ["bacb".toList], 1, 1, 0, [("word_count".toList, .int 1)], []⟩

/-!
## Theorems for the claims
-/

/-- C8: the claim asserts `normalize(normalize(s)) = normalize(s)` for all
strings.  The code violates it: on `s8` the first pass rewrites the
embedded needle and thereby *creates* a new occurrence of the needle
(`, "'").replace(`), which only the second pass rewrites, so
`normalize(normalize(s8)) = "'" ≠ normalize(s8)`.  The spec's intended
quote-folding (typographic to ASCII) was lost when the source was saved
with ASCII quotes, turning the folding line into a 15-character-needle
replacement — a transcription slip in the code, so the claim reflects the
intent and the code is at fault. -/
theorem c8_normalize_not_idempotent :
    normalize_content s8 = quoteFoldNeedle ∧
    normalize_content (normalize_content s8) = ['\''] ∧
    normalize_content (normalize_content s8) ≠ normalize_content s8 := by
  refine ⟨by decide, by decide, by decide⟩

/-- C10 (counterexample): matching is indeed raw substring containment,
but the claim that every substring-matched vocabulary term "is included in
topicIndicators" fails: `c10Text` matches eleven vocabulary terms, and
`server` — matched only inside the longer word `myserverless` — is the
eleventh in vocabulary order, so the `[:10]` truncation drops it. -/
theorem c10_truncation_counterexample :
    "server".toList ∈ tech_indicators ∧
    pyContains (pyLower c10Text) "server".toList = true ∧
    "server".toList ∉ extract_topic_indicators c10Text := by
  refine ⟨by decide, by decide, by decide⟩

/-- C10 (amended): a vocabulary term occurring as a raw substring of the
lowercased text — word boundaries play no role — is always among the
matched indicators (`found_indicators`), and `topicIndicators` is exactly
the first 10 of those matches in vocabulary order. -/
theorem c10_substring_match_found (t ind : List Char)
    (hv : ind ∈ tech_indicators)
    (hsub : pyContains (pyLower t) ind = true) :
    ind ∈ foundIndicators t ∧
    extract_topic_indicators t = (foundIndicators t).take 10 := by
  exact ⟨List.mem_filter.mpr ⟨hv, hsub⟩, rfl⟩

/-- C10 (witness): the text `said` contains the vocabulary term `ai` only
as an interior substring, and `ai` is matched. -/
theorem c10_witness :
    "ai".toList ∈ foundIndicators "said".toList ∧
    extract_topic_indicators "said".toList = (foundIndicators "said".toList).take 10 :=
  c10_substring_match_found "said".toList "ai".toList (by decide) (by decide)

/-- C7: the claim says the divisor is guarded so the computation is total
with `structureSim = 1.0` when both word counts are 0.  In the code the `1`
default of `.get('word_count', 1)` guards only a *missing* key: for the
structure dict actually produced for empty content (`word_count = 0`
present, seven other keys present), `max_words = max 0 0 = 0` and the
division raises `ZeroDivisionError`, which the enclosing `try` of
`_calculate_similarity` converts into an overall similarity of `0.0`.  The
spec's guarded formula would give `1.0`. -/
theorem c7_structure_divide_by_zero :
    getIntD fpEmpty.content_structure "word_count".toList 1 = 0 ∧
    fpEmpty.content_structure.isEmpty = false ∧
    calculate_structure_similarity fpEmpty.content_structure fpEmpty.content_structure
      = .error () ∧
    calculate_similarity fpEmpty fpEmpty = 0 ∧
    structureSimSpec 0 0 = 1 := by
  refine ⟨by decide, by decide, rfl, rfl, ?_⟩
  unfold structureSimSpec
  norm_num

/-- C5: the claim (TTL expiry, including in the local fallback) is the
spec's stated intent, and `_store_content_hash`'s own docstring says the
hash is stored "with expiration"; but the in-memory branch stores hashes in
a plain set with no timestamp and `_clean_expired_entries` never touches
`content_hashes`.  With `time_window_hours = 0` the same content submitted
again an hour later is still reported as `exact_duplicate`, not `unique`. -/
theorem c5_zero_window_hash_still_duplicate :
    (is_duplicate_mem toyLibs toyHash cfgZeroWindow 0 emptyState
        "abc".toList [] []).1 = (false, "unique".toList, 0) ∧
    (is_duplicate_mem toyLibs toyHash cfgZeroWindow 3600
        (is_duplicate_mem toyLibs toyHash cfgZeroWindow 0 emptyState
          "abc".toList [] []).2
        "abc".toList [] []).1 = (true, "exact_duplicate".toList, 1) := by
  refine ⟨rfl, rfl⟩

/-- C2: if the `try` body of `is_duplicate` raises anywhere, the caller
receives exactly `(False, "error_fallback", 0.0)` and no exception. -/
theorem c2_error_fallback {σ : Type} (S : DedupSteps σ) (cfg : EngineConfig)
    (st : σ) (content title url : List Char) (e : Unit)
    (h : is_duplicate_body S cfg st content title url = .error e) :
    is_duplicate_guarded S cfg st content title url
      = (false, "error_fallback".toList, 0) := by
  unfold is_duplicate_guarded
  rw [h]

/-- C2 (witness): an engine whose very first step (the expiry sweep)
raises returns the fail-open verdict. -/
theorem c2_witness :
    is_duplicate_guarded failSteps cfgDefault () "abc".toList [] []
      = (false, "error_fallback".toList, 0) :=
  c2_error_fallback failSteps cfgDefault () "abc".toList [] [] () rfl

/-- C6 (counterexample): for empty text with the analysis succeeding, the
returned `reading_ease` is `0` (the code's `else 0` branch), not the
neutral `50` the claim states. -/
theorem c6_empty_text_reading_ease_zero :
    (create_semantic_fingerprint toyLibs []).reading_ease = 0 ∧
    (0 : ℚ) ≠ 50 := by
  exact ⟨rfl, by norm_num⟩

/-- C6 (amended): the caller always receives a `reading_ease` value; it is
`50` when fingerprint analysis fails (the basic-fingerprint fallback), but
`0` — not `50` — when the text is empty and analysis succeeds. -/
theorem c6_reading_ease_defaults (libs : Libs) (content : List Char) :
    ((fingerprint_body libs content).isOk = false →
      (create_semantic_fingerprint libs content).reading_ease = 50) ∧
    ((stripWs content).isEmpty = true → (fingerprint_body libs content).isOk = true →
      (create_semantic_fingerprint libs content).reading_ease = 0) := by
  constructor
  · intro h
    unfold create_semantic_fingerprint
    cases hb : fingerprint_body libs content with
    | ok fp => rw [hb] at h; simp [Except.isOk, Except.toBool] at h
    | error e => simp [create_basic_fingerprint]
  · intro hempty hok
    unfold create_semantic_fingerprint
    cases hb : fingerprint_body libs content with
    | error e => rw [hb] at hok; simp [Except.isOk, Except.toBool] at hok
    | ok fp =>
      unfold fingerprint_body at hb
      cases hs : libs.sent_tokenize content with
      | error e => rw [hs] at hb; simp [Bind.bind, Except.bind] at hb
      | ok sentences =>
        rw [hs, hempty] at hb
        simp [Bind.bind, Except.bind, Except.pure] at hb
        rw [← hb]

/-- C6 (witness): both branches of the amended claim at concrete inputs —
failing analysis yields `50`, empty text with successful analysis yields
`0`. -/
theorem c6_witness :
    (create_semantic_fingerprint failLibs "some text".toList).reading_ease = 50 ∧
    (create_semantic_fingerprint toyLibs "".toList).reading_ease = 0 := by
  constructor
  · exact (c6_reading_ease_defaults failLibs "some text".toList).1 rfl
  · exact (c6_reading_ease_defaults toyLibs "".toList).2 rfl rfl

/-- C4 (counterexample): at the pair of empty-content fingerprints the
similarity is `0.0`, not the weighted sum: all three list components are
`0`, the spec's (guarded, total) `structureSim` is `1`, so the formula
gives `0.1`, but the code's structure term raises and the handler returns
`0.0`. -/
theorem c4_formula_counterexample :
    calculate_similarity fpEmpty fpEmpty = 0 ∧
    calculate_word_similarity fpEmpty.key_words fpEmpty.key_words = 0 ∧
    calculate_sentence_similarity fpEmpty.key_sentences fpEmpty.key_sentences = 0 ∧
    calculate_topic_similarity fpEmpty.topic_indicators fpEmpty.topic_indicators = 0 ∧
    structureSimSpec (getIntD fpEmpty.content_structure "word_count".toList 0)
      (getIntD fpEmpty.content_structure "word_count".toList 0) = 1 ∧
    (0 : ℚ) ≠ 0 * 0.4 + 0 * 0.3 + 0 * 0.2 + 1 * 0.1 := by
  refine ⟨rfl, rfl, rfl, rfl, ?_, by norm_num⟩
  show structureSimSpec 0 0 = 1
  unfold structureSimSpec
  norm_num

/-- C4 (amended): whenever the structure term does not raise (i.e. except
for the both-word-counts-zero case of C7), the similarity is exactly
`0.4·wordSim + 0.3·sentenceSim + 0.2·topicSim + 0.1·structureSim`, and the
Jaccard word/topic similarities and the sentence similarity are `0.0` —
never undefined — when either input list is empty. -/
theorem c4_weighted_formula (fp1 fp2 : Fingerprint) (q : ℚ)
    (h : calculate_structure_similarity fp1.content_structure fp2.content_structure
      = .ok q) :
    calculate_similarity fp1 fp2 =
      calculate_word_similarity fp1.key_words fp2.key_words * 0.4 +
      calculate_sentence_similarity fp1.key_sentences fp2.key_sentences * 0.3 +
      calculate_topic_similarity fp1.topic_indicators fp2.topic_indicators * 0.2 +
      q * 0.1 ∧
    (∀ l, calculate_word_similarity [] l = 0) ∧
    (∀ l, calculate_word_similarity l [] = 0) ∧
    (∀ l, calculate_sentence_similarity [] l = 0) ∧
    (∀ l, calculate_sentence_similarity l [] = 0) ∧
    (∀ l, calculate_topic_similarity [] l = 0) ∧
    (∀ l, calculate_topic_similarity l [] = 0) := by
  refine ⟨?_, ?_, ?_, ?_, ?_, ?_, ?_⟩
  · unfold calculate_similarity
    rw [h]
  · intro l; simp [calculate_word_similarity]
  · intro l; simp [calculate_word_similarity]
  · intro l; simp [calculate_sentence_similarity]
  · intro l; simp [calculate_sentence_similarity]
  · intro l; simp [calculate_topic_similarity]
  · intro l; simp [calculate_topic_similarity]

/-- C4 (witness): the weighted formula instantiated at the (real code
path) fingerprint of `hi` paired with itself, where the structure term is
defined and equals `1`. -/
theorem c4_witness :
    calculate_structure_similarity fpOne.content_structure fpOne.content_structure
      = .ok 1 ∧
    calculate_similarity fpOne fpOne =
      calculate_word_similarity fpOne.key_words fpOne.key_words * 0.4 +
      calculate_sentence_similarity fpOne.key_sentences fpOne.key_sentences * 0.3 +
      calculate_topic_similarity fpOne.topic_indicators fpOne.topic_indicators * 0.2 +
      1 * 0.1 := by
  have hq : (1 : ℚ) - ((0 : ℕ) : ℚ) / ((1 : ℤ) : ℚ) = 1 := by norm_num
  have h : calculate_structure_similarity fpOne.content_structure fpOne.content_structure
      = .ok (1 - ((0 : ℕ) : ℚ) / ((1 : ℤ) : ℚ)) := rfl
  rw [hq] at h
  exact ⟨h, (c4_weighted_formula fpOne fpOne 1 h).1⟩

/-- The Jaccard word similarity is symmetric (shared helper). -/
theorem word_similarity_comm (l1 l2 : List (List Char)) :
    calculate_word_similarity l1 l2 = calculate_word_similarity l2 l1 := by
  unfold calculate_word_similarity
  dsimp only
  rw [Bool.or_comm, Finset.inter_comm, Finset.union_comm]

/-- The Jaccard topic similarity is symmetric (shared helper). -/
theorem topic_similarity_comm (l1 l2 : List (List Char)) :
    calculate_topic_similarity l1 l2 = calculate_topic_similarity l2 l1 := by
  unfold calculate_topic_similarity
  dsimp only
  rw [Bool.or_comm, Finset.inter_comm, Finset.union_comm]

/-- The structure similarity (including its error case) is symmetric
(shared helper). -/
theorem structure_similarity_comm (s1 s2 : PyDict) :
    calculate_structure_similarity s1 s2 = calculate_structure_similarity s2 s1 := by
  unfold calculate_structure_similarity
  dsimp only
  rw [Bool.or_comm, show (getIntD s1 "word_count".toList 0 -
      getIntD s2 "word_count".toList 0).natAbs =
    (getIntD s2 "word_count".toList 0 - getIntD s1 "word_count".toList 0).natAbs from by
      rw [← Int.natAbs_neg, neg_sub], max_comm]

/-- C9 (counterexample): the similarity score is not symmetric.  With the
single key sentences `ab` and `bacb`, `SequenceMatcher.ratio` gives `2/3`
one way and `1/3` the other (its greedy longest-block recursion is
order-dependent), so the weighted scores are `0.3` and `0.2`. -/
theorem c9_asymmetric_counterexample :
    calculate_similarity fpSentA fpSentB = 3/10 ∧
    calculate_similarity fpSentB fpSentA = 1/5 ∧
    calculate_similarity fpSentA fpSentB ≠ calculate_similarity fpSentB fpSentA := by
  have hm1 : matchTotal "ab".toList "bacb".toList = 2 := by decide
  have hm2 : matchTotal "bacb".toList "ab".toList = 1 := by decide
  have hl1 : ("ab".toList).length = 2 := by decide
  have hl2 : ("bacb".toList).length = 4 := by decide
  have hr1 : seqRatio "ab".toList "bacb".toList = 2/3 := by
    unfold seqRatio
    rw [if_pos (by decide : ("ab".toList).length + ("bacb".toList).length ≠ 0),
      hm1, hl1, hl2]
    norm_num
  have hr2 : seqRatio "bacb".toList "ab".toList = 1/3 := by
    unfold seqRatio
    rw [if_pos (by decide : ("bacb".toList).length + ("ab".toList).length ≠ 0),
      hm2, hl1, hl2]
    norm_num
  have hpa : pyLower "ab".toList = "ab".toList := by decide
  have hpb : pyLower "bacb".toList = "bacb".toList := by decide
  have hs1 : calculate_sentence_similarity ["ab".toList] ["bacb".toList] = 2/3 := by
    unfold calculate_sentence_similarity
    simp only [List.isEmpty_cons, Bool.or_self, Bool.false_eq_true, if_false,
      List.foldl_cons, List.foldl_nil]
    rw [hpa, hpb, hr1]
    norm_num
  have hs2 : calculate_sentence_similarity ["bacb".toList] ["ab".toList] = 1/3 := by
    unfold calculate_sentence_similarity
    simp only [List.isEmpty_cons, Bool.or_self, Bool.false_eq_true, if_false,
      List.foldl_cons, List.foldl_nil]
    rw [hpa, hpb, hr2]
    norm_num
  have hstr : calculate_structure_similarity fpSentA.content_structure
      fpSentB.content_structure = .ok (1 - ((0 : ℕ) : ℚ) / ((1 : ℤ) : ℚ)) := rfl
  have hstr2 : calculate_structure_similarity fpSentB.content_structure
      fpSentA.content_structure = .ok (1 - ((0 : ℕ) : ℚ) / ((1 : ℤ) : ℚ)) := rfl
  have hA : calculate_similarity fpSentA fpSentB = 3/10 := by
    unfold calculate_similarity
    rw [hstr]
    rw [show calculate_word_similarity fpSentA.key_words fpSentB.key_words = 0 from rfl,
      show calculate_topic_similarity fpSentA.topic_indicators fpSentB.topic_indicators = 0
        from rfl,
      show fpSentA.key_sentences = ["ab".toList] from rfl,
      show fpSentB.key_sentences = ["bacb".toList] from rfl, hs1]
    norm_num
  have hB : calculate_similarity fpSentB fpSentA = 1/5 := by
    unfold calculate_similarity
    rw [hstr2]
    rw [show calculate_word_similarity fpSentB.key_words fpSentA.key_words = 0 from rfl,
      show calculate_topic_similarity fpSentB.topic_indicators fpSentA.topic_indicators = 0
        from rfl,
      show fpSentB.key_sentences = ["bacb".toList] from rfl,
      show fpSentA.key_sentences = ["ab".toList] from rfl, hs2]
    norm_num
  refine ⟨hA, hB, ?_⟩
  rw [hA, hB]
  norm_num

/-- C9 (amended): the word, topic and structure components are each
symmetric, so the asymmetry is exactly the sentence component's: whenever
the structure term is defined, the difference of the two orientations of
the similarity equals `0.3` times the difference of the two orientations
of the sentence similarity (and is therefore zero exactly when the
sentence component happens to be symmetric — the score is not symmetric in
general). -/
theorem c9_similarity_difference (fp1 fp2 : Fingerprint) (q : ℚ)
    (h : calculate_structure_similarity fp1.content_structure fp2.content_structure
      = .ok q) :
    calculate_similarity fp1 fp2 - calculate_similarity fp2 fp1 =
      (calculate_sentence_similarity fp1.key_sentences fp2.key_sentences -
        calculate_sentence_similarity fp2.key_sentences fp1.key_sentences) * 0.3 := by
  have h2 : calculate_structure_similarity fp2.content_structure fp1.content_structure
      = .ok q := by
    rw [structure_similarity_comm]
    exact h
  unfold calculate_similarity
  rw [h, h2, word_similarity_comm fp2.key_words fp1.key_words,
    topic_similarity_comm fp2.topic_indicators fp1.topic_indicators]
  ring

/-- C9 (witness): the difference identity instantiated at the concrete
asymmetric pair. -/
theorem c9_witness :
    calculate_similarity fpSentA fpSentB - calculate_similarity fpSentB fpSentA =
      (calculate_sentence_similarity fpSentA.key_sentences fpSentB.key_sentences -
        calculate_sentence_similarity fpSentB.key_sentences fpSentA.key_sentences) * 0.3 :=
  c9_similarity_difference fpSentA fpSentB (1 - ((0 : ℕ) : ℚ) / ((1 : ℤ) : ℚ)) rfl

/-- Shared helper for C3: while the running maximum is below a positive
threshold, the scan returns a duplicate verdict at the first stored entry
whose similarity reaches the threshold. -/
theorem semanticScan_first_crossing (t : ℚ) (fp : Fingerprint)
    (pre : List (List Char × Fingerprint)) (sid : List Char) (sfp : Fingerprint)
    (post : List (List Char × Fingerprint)) :
    ∀ (acc : ℚ) (msid : List Char), acc < t →
      (∀ p ∈ pre, calculate_similarity fp p.2 < t) →
      t ≤ calculate_similarity fp sfp →
      semanticScan t fp (pre ++ (sid, sfp) :: post) acc msid =
        (true, "semantic_similar_to_".toList ++ sid, calculate_similarity fp sfp) := by
  induction pre with
  | nil =>
    intro acc msid hacc hpre hcross
    have hgt : calculate_similarity fp sfp > acc := lt_of_lt_of_le hacc hcross
    simp only [List.nil_append, semanticScan]
    rw [if_pos hgt, if_pos hcross]
  | cons hd tl ih =>
    intro acc msid hacc hpre hcross
    obtain ⟨hid, hfp⟩ := hd
    have hhd : calculate_similarity fp hfp < t := by
      simpa using hpre (hid, hfp) (List.mem_cons_self _ _)
    have htl : ∀ p ∈ tl, calculate_similarity fp p.2 < t := fun p hp =>
      hpre p (List.mem_cons_of_mem _ hp)
    simp only [List.cons_append, semanticScan]
    by_cases hgt : calculate_similarity fp hfp > acc
    · rw [if_pos hgt, if_neg (not_le.mpr hhd)]
      exact ih _ _ hhd htl hcross
    · rw [if_neg hgt]
      exact ih _ _ hacc htl hcross

/-- C3 (counterexample): with `similarityThreshold = 0` a stored
fingerprint whose similarity to the incoming one is exactly `0 =
similarityThreshold` is *not* classified as duplicate: the `>=` test sits
inside the strict `similarity > max_similarity` branch and the running
maximum starts at `0.0`, so the scan falls through to
`"semantically_unique"`. -/
theorem c3_threshold_zero_counterexample :
    calculate_similarity fpWc0 fpWc4 = 0 ∧
    check_semantic_similarity 0 [("prev".toList, fpWc4)] fpWc0
      = (false, "semantically_unique".toList, 0) := by
  have hstr : calculate_structure_similarity fpWc0.content_structure
      fpWc4.content_structure = .ok (1 - ((4 : ℕ) : ℚ) / ((4 : ℤ) : ℚ)) := rfl
  have hsim : calculate_similarity fpWc0 fpWc4 = 0 := by
    unfold calculate_similarity
    rw [hstr]
    rw [show calculate_word_similarity fpWc0.key_words fpWc4.key_words = 0 from rfl,
      show calculate_sentence_similarity fpWc0.key_sentences fpWc4.key_sentences = 0
        from rfl,
      show calculate_topic_similarity fpWc0.topic_indicators fpWc4.topic_indicators = 0
        from rfl]
    norm_num
  refine ⟨hsim, ?_⟩
  unfold check_semantic_similarity
  simp only [semanticScan]
  rw [hsim, if_neg (lt_irrefl (0 : ℚ))]

/-- C3 (amended): for every *positive* threshold the claim holds as
stated: whenever a stored fingerprint's similarity to the incoming one is
`≥ similarityThreshold` (in particular when it equals it exactly — the
comparison is `>=`, not `>`), the semantic stage returns `(true,
"semantic_similar_to_<id>", score)` for the first stored entry crossing
the threshold.  (When the threshold is `0` or negative, a pair tying the
threshold at score `0` is missed — see the counterexample.) -/
theorem c3_first_crossing_duplicate (t : ℚ) (ht : 0 < t)
    (fp sfp : Fingerprint) (sid : List Char)
    (pre post : List (List Char × Fingerprint))
    (hpre : ∀ p ∈ pre, calculate_similarity fp p.2 < t)
    (hcross : t ≤ calculate_similarity fp sfp) :
    check_semantic_similarity t (pre ++ (sid, sfp) :: post) fp =
      (true, "semantic_similar_to_".toList ++ sid, calculate_similarity fp sfp) :=
  semanticScan_first_crossing t fp pre sid sfp post 0 [] ht hpre hcross

/-- C3 (witness): threshold `0.1` with a stored fingerprint whose
similarity to the incoming one is exactly `0.1`: classified duplicate. -/
theorem c3_witness :
    (0 : ℚ) < 1/10 ∧
    calculate_similarity fpW2 fpW2 = 1/10 ∧
    check_semantic_similarity (1/10) [("x".toList, fpW2)] fpW2
      = (true, "semantic_similar_to_".toList ++ "x".toList,
          calculate_similarity fpW2 fpW2) := by
  have hstr : calculate_structure_similarity fpW2.content_structure
      fpW2.content_structure = .ok (1 - ((0 : ℕ) : ℚ) / ((2 : ℤ) : ℚ)) := rfl
  have hsim : calculate_similarity fpW2 fpW2 = 1/10 := by
    unfold calculate_similarity
    rw [hstr]
    rw [show calculate_word_similarity fpW2.key_words fpW2.key_words = 0 from rfl,
      show calculate_sentence_similarity fpW2.key_sentences fpW2.key_sentences = 0
        from rfl,
      show calculate_topic_similarity fpW2.topic_indicators fpW2.topic_indicators = 0
        from rfl]
    norm_num
  exact ⟨by norm_num, hsim,
    c3_first_crossing_duplicate (1/10) (by norm_num) fpW2 fpW2 "x".toList [] []
      (by intro p hp; simp at hp) (le_of_eq hsim.symm)⟩

/-- Shared helper for C1: the expiry sweep never touches the stored
content hashes. -/
theorem clean_preserves_hashes (cfg : EngineConfig) (now : ℤ) (st : EngineState) :
    (clean_expired_entries cfg now st).content_hashes = st.content_hashes := rfl

/-- Shared helper for C1: when the hash stage is enabled and the (already
swept) store contains the content's hash, `is_duplicate` returns the
exact-duplicate verdict immediately. -/
theorem hash_seen_duplicate (libs : Libs) (H : HashFns) (cfg : EngineConfig)
    (now : ℤ) (st : EngineState) (content title url : List Char)
    (hh : cfg.content_hash_enabled = true)
    (hc : st.content_hashes.contains (create_content_hash H content) = true) :
    (is_duplicate_mem libs H cfg now st content title url).1
      = (true, "exact_duplicate".toList, 1) := by
  unfold is_duplicate_mem
  rw [hh]
  dsimp only
  rw [clean_preserves_hashes, hc]
  rfl

/-- Shared helper for C1: on an empty store the first call returns
`(False, "unique", 0.0)` and stores exactly the content hash. -/
theorem first_call_on_empty_store (libs : Libs) (H : HashFns) (cfg : EngineConfig)
    (now : ℤ) (content title url : List Char)
    (hh : cfg.content_hash_enabled = true) :
    (is_duplicate_mem libs H cfg now emptyState content title url).1
      = (false, "unique".toList, 0) ∧
    (is_duplicate_mem libs H cfg now emptyState content title url).2.content_hashes
      = [create_content_hash H content] := by
  unfold is_duplicate_mem
  rw [show clean_expired_entries cfg now emptyState = emptyState from rfl, hh]
  cases hsem : cfg.semantic_analysis <;> cases url <;>
    simp [emptyState, setAdd, dictSet, check_semantic_similarity, semanticScan]

/-- C1: with the hash stage enabled, the first submission of any content
to an empty store returns `(False, "unique", 0.0)`, and an immediately
repeated submission of the same content/title/url within the time window
returns `(True, "exact_duplicate", 1.0)` from the hash stage, before any
later stage runs. -/
theorem c1_first_unique_then_exact_duplicate
    (libs : Libs) (H : HashFns) (cfg : EngineConfig) (now now2 : ℤ)
    (content title url : List Char)
    (hh : cfg.content_hash_enabled = true)
    (_hwin : now2 - now ≤ cfg.time_window_hours * 3600) :
    (is_duplicate_mem libs H cfg now emptyState content title url).1
      = (false, "unique".toList, 0) ∧
    (is_duplicate_mem libs H cfg now2
        (is_duplicate_mem libs H cfg now emptyState content title url).2
        content title url).1
      = (true, "exact_duplicate".toList, 1) := by
  obtain ⟨h1, h2⟩ := first_call_on_empty_store libs H cfg now content title url hh
  refine ⟨h1, hash_seen_duplicate libs H cfg now2 _ content title url hh ?_⟩
  rw [h2]
  simp

/-- C1 (witness): concrete run with the default configuration. -/
theorem c1_witness :
    (is_duplicate_mem toyLibs toyHash cfgDefault 0 emptyState
        "abc".toList [] []).1 = (false, "unique".toList, 0) ∧
    (is_duplicate_mem toyLibs toyHash cfgDefault 0
        (is_duplicate_mem toyLibs toyHash cfgDefault 0 emptyState
          "abc".toList [] []).2
        "abc".toList [] []).1 = (true, "exact_duplicate".toList, 1) :=
  c1_first_unique_then_exact_duplicate toyLibs toyHash cfgDefault 0 0
    "abc".toList [] [] rfl (by decide)

end NewsStream


